import Mathlib

/-!
Shallow embedding of the grimoire single-page app's core: the entity store
(DataProvider's book/character collections and CRUD operations), the
localStorage load path, the navigation state, and the view-rendering
dispatch, translated from the React source. Timestamps produced by
Date.now() are passed in explicitly as a natural-number argument, and the
nullable JavaScript values (selected ids, a character's bookId) are
modelled with Option.
-/

namespace Grimoire

/-- Record shape of a book as stored in the books collection:
id, title, author, coverImage, readStatus, notes. -/
structure Book where
  id : Nat
  title : String
  author : String
  coverImage : String
  readStatus : String
  notes : String
deriving DecidableEq, Repr

/-- Record shape of a character as stored in the characters collection:
id, name, image, origin, family, summary, backstory, bookId. bookId is
Option Nat because in the source it is a possibly-null foreign reference. -/
structure Character where
  id : Nat
  name : String
  image : String
  origin : String
  family : String
  summary : String
  backstory : String
  bookId : Option Nat
deriving DecidableEq, Repr

/-- The in-memory state DataProvider owns: the two collections. -/
structure Store where
  books : List Book
  characters : List Character
deriving DecidableEq, Repr

/-- addBook from DataProvider: setBooks(prev maps to [...prev, { ...book, id: Date.now() }]).
The spread of the input followed by the id field means the stored record
carries the input's fields with id overwritten by the timestamp `now`. -/
def addBook (s : Store) (book : Book) (now : Nat) : Store :=
  { s with books := s.books ++ [{ book with id := now }] }

/-- updateBook from DataProvider: prevBooks.map(book => book.id === updatedBook.id ? updatedBook : book). -/
def updateBook (s : Store) (updatedBook : Book) : Store :=
  { s with books := s.books.map (fun book => if book.id == updatedBook.id then updatedBook else book) }

/-- deleteBook from DataProvider: filters the book with that id out of books,
and cascades by filtering out every character whose bookId === id. -/
def deleteBook (s : Store) (id : Nat) : Store :=
  { books := s.books.filter (fun book => book.id != id),
    characters := s.characters.filter (fun char => char.bookId != some id) }

/-- addCharacter from DataProvider: [...prevChars, { ...character, id: Date.now() }]. -/
def addCharacter (s : Store) (character : Character) (now : Nat) : Store :=
  { s with characters := s.characters ++ [{ character with id := now }] }

/-- updateCharacter from DataProvider: prevChars.map(char => char.id === updatedCharacter.id ? updatedCharacter : char). -/
def updateCharacter (s : Store) (updatedCharacter : Character) : Store :=
  { s with characters := s.characters.map (fun char => if char.id == updatedCharacter.id then updatedCharacter else char) }

/-- deleteCharacter from DataProvider: prevChars.filter(char => char.id !== id). -/
def deleteCharacter (s : Store) (id : Nat) : Store :=
  { s with characters := s.characters.filter (fun char => char.id != id) }

/-- Outcome of JSON.parse on a persisted localStorage payload: the parse can
throw, succeed with a non-array value, or succeed with an array of records. -/
inductive ParseOutcome (α : Type) where
  | throws : ParseOutcome α
  | nonArray : ParseOutcome α
  | array : List α → ParseOutcome α
deriving DecidableEq, Repr

/-- One collection's branch of the load effect in DataProvider: absent payload
(storedX falsy) sets the collection to []; a payload parsing to an array keeps
it (Array.isArray check), a non-array parse result degrades to []; a throwing
parse propagates the exception (modelled as Except.error) to the catch block. -/
def readPayload {α : Type} : Option (ParseOutcome α) → Except Unit (List α)
  | none => Except.ok []
  | some ParseOutcome.throws => Except.error ()
  | some ParseOutcome.nonArray => Except.ok []
  | some (ParseOutcome.array xs) => Except.ok xs

/-- The load effect in DataProvider: reads the books payload then the
characters payload inside one try block; any exception reaches the catch,
which calls setBooks([]) and setCharacters([]), overriding whatever was set
before the throw, so both collections end up empty. -/
def loadStore (storedBooks : Option (ParseOutcome Book))
    (storedCharacters : Option (ParseOutcome Character)) : Store :=
  match readPayload storedBooks with
  | Except.error _ => { books := [], characters := [] }
  | Except.ok bs =>
    match readPayload storedCharacters with
    | Except.error _ => { books := [], characters := [] }
    | Except.ok cs => { books := bs, characters := cs }

/-- Navigation state owned by App: view, selectedBookId, selectedCharacterId.
The view identifier is a string, as in the source's switch-based routing. -/
structure NavState where
  view : String
  selectedBookId : Option Nat
  selectedCharacterId : Option Nat
deriving DecidableEq, Repr

/-- The navigate function in App: setView(newView); setSelectedBookId(bookId);
setSelectedCharacterId(charId), with bookId and charId defaulting to null when
not supplied (callers pass none for an omitted argument). -/
def navigate (_s : NavState) (newView : String) (bookId : Option Nat)
    (charId : Option Nat) : NavState :=
  { view := newView, selectedBookId := bookId, selectedCharacterId := charId }

/-- selectedBook in App: safeBooks.find(b => b.id === selectedBookId). A null
selection (none) matches no book since b.id is always a number. -/
def findBook (books : List Book) (selectedBookId : Option Nat) : Option Book :=
  books.find? (fun b => some b.id == selectedBookId)

/-- selectedCharacter in App: safeCharacters.find(c => c.id === selectedCharacterId). -/
def findCharacter (characters : List Character) (selectedCharacterId : Option Nat) :
    Option Character :=
  characters.find? (fun c => some c.id == selectedCharacterId)

/-- charactersForSelectedBook in App: safeCharacters.filter(c => c.bookId === selectedBookId). -/
def charactersForSelectedBook (characters : List Character)
    (selectedBookId : Option Nat) : List Character :=
  characters.filter (fun c => c.bookId == selectedBookId)

/-- The filtering step of BookList: filterStatus ? safeBooks.filter(book =>
book.readStatus === filterStatus) : safeBooks. A null or empty-string
filterStatus is falsy in the source, so it leaves the list unfiltered. -/
def filteredBooks (books : List Book) : Option String → List Book
  | none => books
  | some st => if st = "" then books else books.filter (fun b => b.readStatus == st)

/-- What App's renderView dispatches to, abstracted to the component and the
props it receives (presentation itself is out of scope). -/
inductive Rendered where
  | bookList : Option String → String → Rendered
  | bookForm : Option Book → Rendered
  | bookDetail : Book → List Character → Rendered
  | characterForm : Option Nat → Option Character → Rendered
  | characterDetail : Character → Rendered
deriving DecidableEq, Repr

/-- renderView in App: the switch on view, with per-view fallback to the
default BookList when the selected book or character cannot be resolved, and
the books/default case rendering the plain BookList. -/
def renderView (view : String) (selectedBookId : Option Nat)
    (selectedCharacterId : Option Nat) (books : List Book)
    (characters : List Character) : Rendered :=
  if view = "wishlist" then Rendered.bookList (some "To Read") "My Wishlist"
  else if view = "readBooks" then Rendered.bookList (some "Read") "Books Read"
  else if view = "addBook" then Rendered.bookForm none
  else if view = "editBook" then
    match findBook books selectedBookId with
    | some b => Rendered.bookForm (some b)
    | none => Rendered.bookList none "My Books"
  else if view = "viewBook" then
    match findBook books selectedBookId with
    | some b => Rendered.bookDetail b (charactersForSelectedBook characters selectedBookId)
    | none => Rendered.bookList none "My Books"
  else if view = "addCharacter" then Rendered.characterForm selectedBookId none
  else if view = "editCharacter" then
    match findCharacter characters selectedCharacterId with
    | some c => Rendered.characterForm selectedBookId (some c)
    | none => Rendered.bookList none "My Books"
  else if view = "viewCharacter" then
    match findCharacter characters selectedCharacterId with
    | some c => Rendered.characterDetail c
    | none => Rendered.bookList none "My Books"
  else Rendered.bookList none "My Books"

/-- Sample book record, used to instantiate theorems at concrete inputs. -/
def bookDune : Book :=
  { id := 1, title := "Dune", author := "Herrick", coverImage := "",
    readStatus := "", notes := "" }

/-- Second sample book record. -/
def bookMist : Book :=
  { id := 2, title := "Mist", author := "S", coverImage := "",
    readStatus := "Read", notes := "" }

/-- Sample character record attached to bookDune. -/
def charPaul : Character :=
  { id := 3, name := "Paul", image := "", origin := "", family := "",
    summary := "", backstory := "", bookId := some 1 }

/-- Sample store holding the two books and one character. -/
def sampleStore : Store :=
  { books := [bookDune, bookMist], characters := [charPaul] }

/-- Replacing a book in an update step never changes the id at that position:
the replacement only happens where the ids already agree. -/
theorem book_id_of_replace (x u : Book) :
    (if x.id == u.id then u else x).id = x.id := by
  cases hb : x.id == u.id with
  | true => simp only [hb, if_true]; exact (eq_of_beq hb).symm
  | false => simp [hb]

/-- Replacing a character in an update step never changes the id at that position. -/
theorem char_id_of_replace (x u : Character) :
    (if x.id == u.id then u else x).id = x.id := by
  cases hb : x.id == u.id with
  | true => simp only [hb, if_true]; exact (eq_of_beq hb).symm
  | false => simp [hb]

/-- C1: deleteBook removes the book with id B and every character whose
bookId equals B, keeps every other record of both collections, and when no
book has id B the book collection is unchanged; the operation is total, so
no error is raised on a missing id. -/
theorem C1_deleteBook_cascade (s : Store) (B : Nat) :
    (∀ c, c ∈ (deleteBook s B).characters ↔ (c ∈ s.characters ∧ c.bookId ≠ some B)) ∧
    (∀ b, b ∈ (deleteBook s B).books ↔ (b ∈ s.books ∧ b.id ≠ B)) ∧
    ((∀ b ∈ s.books, b.id ≠ B) → (deleteBook s B).books = s.books) := by
  refine ⟨?_, ?_, ?_⟩
  · intro c
    simp [deleteBook, List.mem_filter, bne_iff_ne]
  · intro b
    simp [deleteBook, List.mem_filter, bne_iff_ne]
  · intro h
    show s.books.filter (fun book => book.id != B) = s.books
    exact List.filter_eq_self.mpr (fun b hb => by simpa [bne_iff_ne] using h b hb)

/-- Witness for C1 at a concrete store: deleting book 1 removes Paul (whose
bookId is 1), and deleting the absent id 99 leaves the books unchanged. -/
theorem C1_deleteBook_cascade_witness :
    charPaul ∉ (deleteBook sampleStore 1).characters ∧
    (deleteBook sampleStore 99).books = sampleStore.books := by
  constructor
  · intro hmem
    exact (((C1_deleteBook_cascade sampleStore 1).1 charPaul).mp hmem).2 rfl
  · exact (C1_deleteBook_cascade sampleStore 99).2.2 (by decide)

/-- C5: when no record carries the payload's id, updateBook and
updateCharacter are the identity on the whole store, so both collections are
left exactly unchanged. -/
theorem C5_update_missing_id_noop (s : Store) (ub : Book) (uc : Character)
    (hb : ∀ b ∈ s.books, b.id ≠ ub.id) (hc : ∀ c ∈ s.characters, c.id ≠ uc.id) :
    updateBook s ub = s ∧ updateCharacter s uc = s := by
  constructor
  · show { s with books := s.books.map (fun book => if book.id == ub.id then ub else book) } = s
    have h1 : s.books.map (fun book => if book.id == ub.id then ub else book) = s.books := by
      have h2 : s.books.map (fun book => if book.id == ub.id then ub else book) =
          s.books.map (fun b => b) :=
        List.map_congr_left (fun b hbm => by simp [hb b hbm])
      simpa using h2
    rw [h1]
  · show { s with characters := s.characters.map (fun char => if char.id == uc.id then uc else char) } = s
    have h1 : s.characters.map (fun char => if char.id == uc.id then uc else char) = s.characters := by
      have h2 : s.characters.map (fun char => if char.id == uc.id then uc else char) =
          s.characters.map (fun c => c) :=
        List.map_congr_left (fun c hcm => by simp [hc c hcm])
      simpa using h2
    rw [h1]

/-- Witness for C5: in the sample store no record has id 99, and updating
with payloads carrying id 99 leaves the store untouched. -/
theorem C5_update_missing_id_noop_witness :
    updateBook sampleStore { bookDune with id := 99 } = sampleStore ∧
    updateCharacter sampleStore { charPaul with id := 99 } = sampleStore :=
  C5_update_missing_id_noop sampleStore { bookDune with id := 99 }
    { charPaul with id := 99 } (by decide) (by decide)

/-- C6: navigate is total and unconditionally sets the view to the target,
selectedBookId to the supplied book id (or none) and selectedCharacterId to
the supplied character id (or none); the result is independent of the prior
navigation state, so no previously selected id survives a transition that
does not resupply it. -/
theorem C6_navigate_total_reset (s t : NavState) (v : String) (b c : Option Nat) :
    (navigate s v b c).view = v ∧
    (navigate s v b c).selectedBookId = b ∧
    (navigate s v b c).selectedCharacterId = c ∧
    navigate s v b c = navigate t v b c :=
  ⟨rfl, rfl, rfl, rfl⟩

/-- C7: when the selected book id resolves to no book, the viewBook and
editBook cases render the default books list; when the selected character id
resolves to no character, viewCharacter and editCharacter do the same; the
fallback is per-view, so addBook renders its form whatever the selections. -/
theorem C7_renderView_fallback (books : List Book) (characters : List Character)
    (sbid scid : Option Nat) :
    ((∀ b ∈ books, some b.id ≠ sbid) →
      renderView "viewBook" sbid scid books characters = Rendered.bookList none "My Books" ∧
      renderView "editBook" sbid scid books characters = Rendered.bookList none "My Books") ∧
    ((∀ c ∈ characters, some c.id ≠ scid) →
      renderView "viewCharacter" sbid scid books characters = Rendered.bookList none "My Books" ∧
      renderView "editCharacter" sbid scid books characters = Rendered.bookList none "My Books") ∧
    renderView "addBook" sbid scid books characters = Rendered.bookForm none := by
  refine ⟨?_, ?_, ?_⟩
  · intro h
    have hfind : findBook books sbid = none := by
      apply List.find?_eq_none.mpr
      intro b hbm
      simp [h b hbm]
    constructor <;> simp [renderView, hfind]
  · intro h
    have hfind : findCharacter characters scid = none := by
      apply List.find?_eq_none.mpr
      intro c hcm
      simp [h c hcm]
    constructor <;> simp [renderView, hfind]
  · simp [renderView]

/-- Witness for C7: with a store holding only books with ids 1 and 2 and a
character with id 3, selections 99 and 98 resolve to nothing, so viewBook and
viewCharacter both fall back to the default books list. -/
theorem C7_renderView_fallback_witness :
    renderView "viewBook" (some 99) (some 98) sampleStore.books sampleStore.characters =
      Rendered.bookList none "My Books" ∧
    renderView "viewCharacter" (some 99) (some 98) sampleStore.books sampleStore.characters =
      Rendered.bookList none "My Books" := by
  have h := C7_renderView_fallback sampleStore.books sampleStore.characters (some 99) (some 98)
  exact ⟨(h.1 (by decide)).1, (h.2.1 (by decide)).1⟩

/-- Mapping the update-replacement over a book list leaves the sequence of ids
untouched: updates replace in place and never reorder. -/
theorem updateBook_map_id (l : List Book) (u : Book) :
    (l.map (fun book => if book.id == u.id then u else book)).map Book.id = l.map Book.id := by
  rw [List.map_map]
  exact List.map_congr_left (fun x _ => book_id_of_replace x u)

/-- Mapping the update-replacement over a character list leaves the sequence
of ids untouched. -/
theorem updateCharacter_map_id (l : List Character) (u : Character) :
    (l.map (fun char => if char.id == u.id then u else char)).map Character.id =
      l.map Character.id := by
  rw [List.map_map]
  exact List.map_congr_left (fun x _ => char_id_of_replace x u)

/-- C8: each store operation preserves insertion order. Additions append the
new record at the end and leave the other collection alone; updates keep the
sequence of ids of the edited collection unchanged (in-place replacement) and
leave the other collection alone; deletions leave each collection a
subsequence of what it was (survivors keep their relative order); no
operation sorts a collection. -/
theorem C8_insertion_order_preserved (s : Store) (b ub : Book) (c uc : Character)
    (now i j : Nat) :
    (addBook s b now).books = s.books ++ [{ b with id := now }] ∧
    (addBook s b now).characters = s.characters ∧
    (addCharacter s c now).characters = s.characters ++ [{ c with id := now }] ∧
    (addCharacter s c now).books = s.books ∧
    (updateBook s ub).books.map Book.id = s.books.map Book.id ∧
    (updateBook s ub).characters = s.characters ∧
    (updateCharacter s uc).characters.map Character.id = s.characters.map Character.id ∧
    (updateCharacter s uc).books = s.books ∧
    List.Sublist (deleteBook s i).books s.books ∧
    List.Sublist (deleteBook s i).characters s.characters ∧
    List.Sublist (deleteCharacter s j).characters s.characters ∧
    (deleteCharacter s j).books = s.books :=
  ⟨rfl, rfl, rfl, rfl,
   updateBook_map_id s.books ub, rfl,
   updateCharacter_map_id s.characters uc, rfl,
   List.filter_sublist s.books, List.filter_sublist s.characters,
   List.filter_sublist s.characters, rfl⟩

/-- The book record of the spec's filter scenario: title "A", author "B",
readStatus "To Read". -/
def bookInputA : Book :=
  { id := 0, title := "A", author := "B", coverImage := "",
    readStatus := "To Read", notes := "" }

/-- C9: the wishlist filter keeps exactly the books whose readStatus is
"To Read" and the readBooks filter exactly those whose readStatus is "Read";
a book added with readStatus "To Read" appears under the first filter and
not under the second. -/
theorem C9_readStatus_filters (books : List Book) (b : Book) (s : Store) (now : Nat) :
    (b ∈ filteredBooks books (some "To Read") ↔ b ∈ books ∧ b.readStatus = "To Read") ∧
    (b ∈ filteredBooks books (some "Read") ↔ b ∈ books ∧ b.readStatus = "Read") ∧
    { bookInputA with id := now } ∈
      filteredBooks (addBook s bookInputA now).books (some "To Read") ∧
    { bookInputA with id := now } ∉
      filteredBooks (addBook s bookInputA now).books (some "Read") := by
  refine ⟨?_, ?_, ?_, ?_⟩
  · simp [filteredBooks, List.mem_filter]
  · simp [filteredBooks, List.mem_filter]
  · simp [filteredBooks, addBook, List.mem_filter, bookInputA]
  · intro hmem
    have h : ({ bookInputA with id := now } : Book) ∈ (addBook s bookInputA now).books ∧
        ({ bookInputA with id := now } : Book).readStatus = "Read" := by
      simpa [filteredBooks, List.mem_filter] using hmem
    simp [bookInputA] at h

/-- Witness for C9 at a concrete input: the scenario book added at tick 11 to
an empty store shows up under the "To Read" filter and not under "Read". -/
theorem C9_readStatus_filters_witness :
    { bookInputA with id := 11 } ∈
      filteredBooks (addBook { books := [], characters := [] } bookInputA 11).books
        (some "To Read") ∧
    { bookInputA with id := 11 } ∉
      filteredBooks (addBook { books := [], characters := [] } bookInputA 11).books
        (some "Read") :=
  ⟨(C9_readStatus_filters [] bookDune { books := [], characters := [] } 11).2.2.1,
   (C9_readStatus_filters [] bookDune { books := [], characters := [] } 11).2.2.2⟩

/-- C10: the stored record of an add always carries the generated timestamp
as its id, overriding whatever id the input record already carried, while
every other field is taken from the input unchanged; the new record sits at
the end of its collection. -/
theorem C10_caller_id_ignored (s : Store) (b : Book) (c : Character) (now : Nat) :
    (addBook s b now).books.getLast? = some { b with id := now } ∧
    ({ b with id := now }).id = now ∧
    ({ b with id := now }).title = b.title ∧
    ({ b with id := now }).author = b.author ∧
    ({ b with id := now }).coverImage = b.coverImage ∧
    ({ b with id := now }).readStatus = b.readStatus ∧
    ({ b with id := now }).notes = b.notes ∧
    (addCharacter s c now).characters.getLast? = some { c with id := now } ∧
    ({ c with id := now }).id = now ∧
    ({ c with id := now }).name = c.name ∧
    ({ c with id := now }).bookId = c.bookId :=
  ⟨List.getLast?_concat s.books, rfl, rfl, rfl, rfl, rfl, rfl,
   List.getLast?_concat s.characters, rfl, rfl, rfl⟩

/-- Book record already holding id 5, used to exhibit a timestamp collision. -/
def bookX : Book :=
  { id := 5, title := "X", author := "A", coverImage := "",
    readStatus := "", notes := "" }

/-- Input record for a second add whose generated timestamp collides. -/
def bookInputY : Book :=
  { id := 0, title := "Y", author := "B", coverImage := "",
    readStatus := "", notes := "" }

/-- Store whose single book already carries id 5. -/
def collideStore : Store := { books := [bookX], characters := [] }

/-- C2 counterexample: addBook stamps the new record with Date.now(); when
that timestamp (here 5) equals the id of a book already in the collection,
the assigned id is not unique, and lookup by that id finds the older record,
not the newly added one. -/
theorem C2_counterexample :
    bookX ∈ collideStore.books ∧ bookX.id = 5 ∧
    (addBook collideStore bookInputY 5).books = [bookX, { bookInputY with id := 5 }] ∧
    ({ bookInputY with id := 5 } : Book) ≠ bookX ∧
    findBook (addBook collideStore bookInputY 5).books (some 5) = some bookX := by
  refine ⟨by decide, rfl, rfl, by decide, by decide⟩

/-- C2 amended: addBook appends a record whose non-id fields match the input
exactly and whose id is the current timestamp; provided that timestamp
differs from every existing book id (distinct ticks), the new id is unique
and immediate lookup by it yields exactly the added record. -/
theorem C2_addBook_fresh (s : Store) (b : Book) (now : Nat)
    (h : ∀ b0 ∈ s.books, b0.id ≠ now) :
    (addBook s b now).books = s.books ++ [{ b with id := now }] ∧
    ({ b with id := now }).title = b.title ∧
    ({ b with id := now }).author = b.author ∧
    ({ b with id := now }).coverImage = b.coverImage ∧
    ({ b with id := now }).readStatus = b.readStatus ∧
    ({ b with id := now }).notes = b.notes ∧
    (∀ b0 ∈ s.books, b0.id ≠ ({ b with id := now }).id) ∧
    findBook (addBook s b now).books (some now) = some { b with id := now } := by
  refine ⟨rfl, rfl, rfl, rfl, rfl, rfl, h, ?_⟩
  show (s.books ++ [{ b with id := now }]).find? (fun x => some x.id == some now) =
    some { b with id := now }
  rw [List.find?_append]
  have h1 : s.books.find? (fun x => some x.id == some now) = none := by
    apply List.find?_eq_none.mpr
    intro x hx
    simp [h x hx]
  rw [h1]
  simp [List.find?]

/-- Witness for the amended C2: adding to the collide store at the distinct
tick 7 gives a record that lookup by id 7 returns. -/
theorem C2_addBook_fresh_witness :
    findBook (addBook collideStore bookInputY 7).books (some 7) =
      some { bookInputY with id := 7 } :=
  (C2_addBook_fresh collideStore bookInputY 7 (by decide)).2.2.2.2.2.2.2

/-- C3 counterexample: when the books payload fails to parse (the try block
throws) while the characters payload is a perfectly good one-record list, the
catch block resets both collections, so the characters collection does not
load its own persisted contents. -/
theorem C3_counterexample :
    (loadStore (some ParseOutcome.throws)
      (some (ParseOutcome.array [charPaul]))).characters = [] ∧
    (loadStore (some ParseOutcome.throws)
      (some (ParseOutcome.array [charPaul]))).characters ≠ [charPaul] :=
  ⟨rfl, by decide⟩

/-- C3 amended: an absent payload or one that parses to a non-list degrades
only its own collection to empty while the other loads normally; but a
payload that fails to parse aborts the shared try block and the catch resets
both collections to empty. In every case the load returns a store instead of
raising. -/
theorem C3_loadStore_degrade (bs : List Book) (cs : List Character) :
    loadStore none (some (ParseOutcome.array cs)) = { books := [], characters := cs } ∧
    loadStore (some ParseOutcome.nonArray) (some (ParseOutcome.array cs)) =
      { books := [], characters := cs } ∧
    loadStore (some (ParseOutcome.array bs)) none = { books := bs, characters := [] } ∧
    loadStore (some (ParseOutcome.array bs)) (some ParseOutcome.nonArray) =
      { books := bs, characters := [] } ∧
    loadStore (some (ParseOutcome.array bs)) (some (ParseOutcome.array cs)) =
      { books := bs, characters := cs } ∧
    loadStore (some ParseOutcome.throws) (some (ParseOutcome.array cs)) =
      { books := [], characters := [] } ∧
    loadStore (some (ParseOutcome.array bs)) (some ParseOutcome.throws) =
      { books := [], characters := [] } ∧
    loadStore none none = { books := [], characters := [] } :=
  ⟨rfl, rfl, rfl, rfl, rfl, rfl, rfl, rfl⟩

/-- Update payload carrying Paul's id but a different bookId. -/
def charShift : Character :=
  { id := 3, name := "Paul", image := "", origin := "", family := "",
    summary := "", backstory := "", bookId := some 20 }

/-- C4 counterexample: updateCharacter replaces the matching record with the
payload wholesale, so a payload carrying Paul's id but bookId 20 leaves the
record with bookId 20, not the bookId 1 it had before the edit. -/
theorem C4_counterexample :
    charPaul ∈ sampleStore.characters ∧
    charShift.id = charPaul.id ∧
    (updateCharacter sampleStore charShift).characters = [charShift] ∧
    charShift.bookId ≠ charPaul.bookId := by
  refine ⟨by decide, rfl, by decide, by decide⟩

/-- C4 amended: for a character c in the store and a payload carrying c's id,
after updateCharacter the record with that id is exactly the payload, so its
id equals c's old id (id is immutable through edit) and the sequence of ids
is unchanged; its bookId however is the payload's bookId, so the old bookId
is kept only when the payload resupplies it. -/
theorem C4_updateCharacter_id_kept (s : Store) (u c : Character)
    (hc : c ∈ s.characters) (hid : c.id = u.id) :
    u ∈ (updateCharacter s u).characters ∧
    (∀ d ∈ (updateCharacter s u).characters, d.id = c.id → d = u) ∧
    (updateCharacter s u).characters.map Character.id = s.characters.map Character.id ∧
    (u.bookId = c.bookId →
      ∀ d ∈ (updateCharacter s u).characters, d.id = c.id → d.bookId = c.bookId) := by
  have hmem : u ∈ (updateCharacter s u).characters := by
    apply List.mem_map.mpr
    exact ⟨c, hc, by simp [hid]⟩
  have huniq : ∀ d ∈ (updateCharacter s u).characters, d.id = c.id → d = u := by
    intro d hd hdid
    obtain ⟨c0, hc0, rfl⟩ := List.mem_map.mp hd
    by_cases hb : c0.id = u.id
    · simp [hb]
    · have hfalse : (c0.id == u.id) = false := by simp [hb]
      simp only [hfalse, if_false] at hdid ⊢
      exact absurd (hdid.trans hid) hb
  refine ⟨hmem, huniq, updateCharacter_map_id s.characters u, ?_⟩
  intro hbid d hd hdid
  rw [huniq d hd hdid]
  exact hbid

/-- Witness for the amended C4: updating Paul with the shifted payload makes
the stored record exactly the payload. -/
theorem C4_updateCharacter_id_kept_witness :
    charShift ∈ (updateCharacter sampleStore charShift).characters :=
  (C4_updateCharacter_id_kept sampleStore charShift charPaul (by decide) rfl).1

end Grimoire
